import Mathlib

/-!
Verification development for `Gaussian_poolOrNot.c`: a Bayesian model-selection
demonstration that estimates the marginal likelihood (evidence) of a dataset
under a 1-component Gaussian model and a 2-component Gaussian mixture model,
by grid quadrature (Riemann sums over prior-quantile grids) and by Monte Carlo
sampling from the prior.

The embedding works over exact real arithmetic (`ℝ` in place of C `double`).
C loops that accumulate into a scalar are embedded as `List.foldl` over the
loop's index range, matching the source's accumulation order and initial
values; global arrays filled by `a[i] = f(i)` loops are embedded as functions
of the index.  The GSL random-deviate and inverse-CDF primitives, and the
helpers of `GSLfun.c`, live outside the translated unit and are modelled from
the specification: deterministic mathematical functions get explicit
definitions, and the random-number generator is an abstract state `σ` with an
operations record `RNGops`, threaded explicitly through the sampling code.
-/

/- ───────────  Data model  ────────── -/

/-- `Gauss_params` of GSLfun.h: one Gaussian component, mean `mu` and scale
`sigma`. -/
structure Gauss_params where
  mu : ℝ
  sigma : ℝ

/-- `Gauss_mixture_params`: mixing coefficient and the two components. -/
structure Gauss_mixture_params where
  mixCof : ℝ
  Gauss1 : Gauss_params
  Gauss2 : Gauss_params

/- ───────────  Global constants of the C source  ────────── -/

/-- `DATA_N`: the fixed dataset length. -/
def dataN : ℕ := 40

/-- `CDF_GAUSS_N`: size of the mean grid. -/
def cdf_Gauss_n : ℕ := 20

/-- `CDF_GAMMA_N`: size of the precision/scale grid. -/
def cdf_gamma_n : ℕ := 10

/-- `CDF_JBETA_N`: size of the mixing-weight grid. -/
def cdf_JBeta_n : ℕ := 40

/-- `sampleRepeatNum`: Monte Carlo iteration count, fixed at build time. -/
def sampleRepeatNum : ℕ := 2000000

/-- `mu_prior_params = {0.0, 4.0}`: hyperparameters of the Gaussian prior on
the mean. -/
def mu_prior_params : Gauss_params := ⟨0, 4⟩

/-- `sigma_prior_param_a = 0.5`: shape of the Gamma prior on the precision. -/
def sigma_prior_param_a : ℝ := 0.5

/-- `sigma_prior_param_b = 2.0`: second parameter of the Gamma prior on the
precision. -/
def sigma_prior_param_b : ℝ := 2

instance : NeZero cdf_Gauss_n := ⟨by norm_num [cdf_Gauss_n]⟩
instance : NeZero cdf_gamma_n := ⟨by norm_num [cdf_gamma_n]⟩
instance : NeZero cdf_JBeta_n := ⟨by norm_num [cdf_JBeta_n]⟩
instance : NeZero dataN := ⟨by norm_num [dataN]⟩

/- ───────────  External mathematical primitives, modelled from the spec  ────────── -/

/-- Modelled from the spec: `sigma_of_precision` of GSLfun.c (not under src/),
"the usable scale is `1/sqrt(precision)`". -/
noncomputable def sigma_of_precision (prec : ℝ) : ℝ := 1 / Real.sqrt prec

/-- Modelled from the spec: `GSLfun_ran_gaussian_pdf` of GSLfun.c (not under
src/), the "standard closed-form normal density" of one observation under
`Gauss_params`. -/
noncomputable def GSLfun_ran_gaussian_pdf (x : ℝ) (p : Gauss_params) : ℝ :=
  Real.exp (-((x - p.mu) ^ 2) / (2 * p.sigma ^ 2)) / (p.sigma * Real.sqrt (2 * Real.pi))

/-- Modelled from the spec: density of the Gamma distribution (shape `a`,
second parameter `b`), used only to define the Gamma quantile function below.
Vanishes off the support `[0, ∞)`. -/
noncomputable def gamma_pdf (a b t : ℝ) : ℝ :=
  if 0 ≤ t then b ^ a / Real.Gamma a * t ^ (a - 1) * Real.exp (-(b * t)) else 0

/-- Modelled from the spec: cumulative distribution function of the Gamma
prior on the precision. -/
noncomputable def gamma_cdf (a b x : ℝ) : ℝ := ∫ t in Set.Iic x, gamma_pdf a b t

/-- Modelled from the spec: `gsl_cdf_gamma_Pinv`, the quantile function
(inverse CDF) of the Gamma distribution, as the generalized inverse over the
support `[0, ∞)`. -/
noncomputable def gsl_cdf_gamma_Pinv (p a b : ℝ) : ℝ :=
  sInf {x : ℝ | 0 ≤ x ∧ p ≤ gamma_cdf a b x}

/-- Modelled from the spec: CDF of the centered Gaussian with scale `sigma`,
used only to define the Gaussian quantile function below. -/
noncomputable def gauss_cdf (sigma x : ℝ) : ℝ :=
  ∫ t in Set.Iic x, GSLfun_ran_gaussian_pdf t ⟨0, sigma⟩

/-- Modelled from the spec: `gsl_cdf_gaussian_Pinv`, the quantile function of
the centered Gaussian with scale `sigma`, as a generalized inverse. -/
noncomputable def gsl_cdf_gaussian_Pinv (p sigma : ℝ) : ℝ :=
  sInf {x : ℝ | p ≤ gauss_cdf sigma x}

/-- Modelled from the spec: density of the Beta distribution, used only to
define the Beta quantile function below. -/
noncomputable def beta_pdf (a b t : ℝ) : ℝ :=
  if 0 ≤ t ∧ t ≤ 1 then
    Real.Gamma (a + b) / (Real.Gamma a * Real.Gamma b) * t ^ (a - 1) * (1 - t) ^ (b - 1)
  else 0

/-- Modelled from the spec: CDF of the Beta distribution. -/
noncomputable def beta_cdf (a b x : ℝ) : ℝ := ∫ t in Set.Iic x, beta_pdf a b t

/-- Modelled from the spec: `gsl_cdf_beta_Pinv`, the quantile function of the
Beta distribution, as the generalized inverse over the support `[0, 1]`. -/
noncomputable def gsl_cdf_beta_Pinv (p a b : ℝ) : ℝ :=
  sInf {x : ℝ | 0 ≤ x ∧ p ≤ beta_cdf a b x}

/- ───────────  The abstract random deviate source  ────────── -/

/-- The GSL random-number generator, modelled from the spec as an abstract
state type `σ` together with the deviate operations GSLfun.c wraps.  Each
operation returns the drawn value and the advanced generator state. -/
structure RNGops (σ : Type) where
  ran_gaussian : Gauss_params → σ → ℝ × σ
  ran_gamma : ℝ → ℝ → σ → ℝ × σ
  ran_beta_Jeffreys : σ → ℝ × σ
  ran_flat01 : σ → ℝ × σ

/-- `prior_Gauss_params_sample`: draw a mean from the mean prior, a precision
from the Gamma prior, and compose `{mu, sigma_of_precision prec}`. -/
noncomputable def prior_Gauss_params_sample {σ : Type} (R : RNGops σ) (s : σ) :
    Gauss_params × σ :=
  let m := R.ran_gaussian mu_prior_params s
  let g := R.ran_gamma sigma_prior_param_a sigma_prior_param_b m.2
  (⟨m.1, sigma_of_precision g.1⟩, g.2)

/-- `prior_Gauss_mixture_params_sample`: a Jeffreys-Beta weight draw followed
by two independent component draws. -/
noncomputable def prior_Gauss_mixture_params_sample {σ : Type} (R : RNGops σ) (s : σ) :
    Gauss_mixture_params × σ :=
  let w := R.ran_beta_Jeffreys s
  let g1 := prior_Gauss_params_sample R w.2
  let g2 := prior_Gauss_params_sample R g1.2
  (⟨w.1, g1.1, g2.1⟩, g2.2)

/- ───────────  The precomputed quantile grids (`cdfInv_precompute`)  ────────── -/

/-- `cdfInv_Gauss`: the mean grid.  `cdfInv_precompute` stores, at index `i`,
the Gaussian quantile at probability `(i+1)/(1+cdf_Gauss_n)`. -/
noncomputable def cdfInv_Gauss (i : Fin cdf_Gauss_n) : ℝ :=
  gsl_cdf_gaussian_Pinv (((i : ℕ) + 1 : ℝ) / (1 + (cdf_Gauss_n : ℝ))) mu_prior_params.sigma

/-- `cdfInv_gamma`: the precision grid.  `cdfInv_precompute` stores, at index
`i`, the Gamma quantile at probability `i/cdf_gamma_n`. -/
noncomputable def cdfInv_gamma (i : Fin cdf_gamma_n) : ℝ :=
  gsl_cdf_gamma_Pinv (((i : ℕ) : ℝ) / (cdf_gamma_n : ℝ)) sigma_prior_param_a sigma_prior_param_b

/-- `cdfInv_JBeta`: the mixing-weight grid.  `cdfInv_precompute` stores, at
index `i`, the Beta(0.5,0.5) quantile at probability `0.5·i/cdf_JBeta_n`. -/
noncomputable def cdfInv_JBeta (i : Fin cdf_JBeta_n) : ℝ :=
  gsl_cdf_beta_Pinv (0.5 * ((i : ℕ) : ℝ) / (cdf_JBeta_n : ℝ)) 0.5 0.5

/- ───────────  Likelihood expressions  ────────── -/

/-- The mixture density expression as written in `data_prob_2component_bySumming`:
`mixCof·pdf(x, params1) + (1−mixCof)·pdf(x, params2)`. -/
noncomputable def mixture_density_summing (mixCof : ℝ) (p1 p2 : Gauss_params) (x : ℝ) : ℝ :=
  mixCof * GSLfun_ran_gaussian_pdf x p1 + (1 - mixCof) * GSLfun_ran_gaussian_pdf x p2

/-- The mixture density expression as written in `data_prob_2component_bySampling`:
`(1−mixCof)·pdf(x, Gauss2) + mixCof·pdf(x, Gauss1)`. -/
noncomputable def mixture_density_sampling (mixCof : ℝ) (p1 p2 : Gauss_params) (x : ℝ) : ℝ :=
  (1 - mixCof) * GSLfun_ran_gaussian_pdf x p2 + mixCof * GSLfun_ran_gaussian_pdf x p1

/-- The innermost loop shared by the 1-component estimators: the running
product `curProb` of per-observation densities over the whole dataset. -/
noncomputable def gauss_likelihood_product (data : Fin dataN → ℝ) (p : Gauss_params) : ℝ :=
  (List.finRange dataN).foldl (fun curProb d => curProb * GSLfun_ran_gaussian_pdf (data d) p) 1

/- ───────────  Evidence integrators  ────────── -/

/-- `data_prob_1component_bySumming`: nested loops over the mean and
precision grids, accumulating the per-cell likelihood product, divided by the
total cell count. -/
noncomputable def data_prob_1component_bySumming (data : Fin dataN → ℝ) : ℝ :=
  ((List.finRange cdf_Gauss_n).foldl (fun prob_total m =>
    (List.finRange cdf_gamma_n).foldl (fun prob_total s =>
      prob_total +
        gauss_likelihood_product data ⟨cdfInv_Gauss m, sigma_of_precision (cdfInv_gamma s)⟩)
      prob_total) 0)
  / ((cdf_Gauss_n : ℝ) * (cdf_gamma_n : ℝ))

/- ───────────  Fold-to-big-operator helper lemmas  ────────── -/

lemma foldl_add_of_step {α : Type} (g : ℝ → α → ℝ) (f : α → ℝ)
    (hg : ∀ a x, g a x = a + f x) :
    ∀ (l : List α) (a : ℝ), l.foldl g a = a + (l.map f).sum := by
  intro l
  induction l with
  | nil => intro a; simp
  | cons x xs ih =>
      intro a
      rw [List.foldl_cons, hg, ih, List.map_cons, List.sum_cons, add_assoc]

lemma foldl_mul_of_step {α : Type} (g : ℝ → α → ℝ) (f : α → ℝ)
    (hg : ∀ a x, g a x = a * f x) :
    ∀ (l : List α) (a : ℝ), l.foldl g a = a * (l.map f).prod := by
  intro l
  induction l with
  | nil => intro a; simp
  | cons x xs ih =>
      intro a
      rw [List.foldl_cons, hg, ih, List.map_cons, List.prod_cons, mul_assoc]

lemma foldl_add_finRange {n : ℕ} (g : ℝ → Fin n → ℝ) (f : Fin n → ℝ)
    (hg : ∀ a x, g a x = a + f x) (a : ℝ) :
    (List.finRange n).foldl g a = a + ∑ i : Fin n, f i := by
  rw [foldl_add_of_step g f hg, Fin.sum_univ_def]

lemma gauss_likelihood_product_eq (data : Fin dataN → ℝ) (p : Gauss_params) :
    gauss_likelihood_product data p = ∏ d : Fin dataN, GSLfun_ran_gaussian_pdf (data d) p := by
  rw [gauss_likelihood_product,
    foldl_mul_of_step _ (fun d => GSLfun_ran_gaussian_pdf (data d) p) (fun _ _ => rfl),
    one_mul, Fin.prod_univ_def]

/-- The 1-component Riemann sum, as a double sum over the grids of the
per-cell product of densities, divided by the cell count. -/
lemma data_prob_1component_bySumming_eq (data : Fin dataN → ℝ) :
    data_prob_1component_bySumming data =
      (∑ m : Fin cdf_Gauss_n, ∑ s : Fin cdf_gamma_n,
        ∏ d : Fin dataN, GSLfun_ran_gaussian_pdf (data d)
          ⟨cdfInv_Gauss m, sigma_of_precision (cdfInv_gamma s)⟩)
      / ((cdf_Gauss_n : ℝ) * (cdf_gamma_n : ℝ)) := by
  rw [data_prob_1component_bySumming]
  congr 1
  rw [foldl_add_finRange _
    (fun m => ∑ s : Fin cdf_gamma_n,
      ∏ d : Fin dataN, GSLfun_ran_gaussian_pdf (data d)
        ⟨cdfInv_Gauss m, sigma_of_precision (cdfInv_gamma s)⟩)
    (fun a m => by
      rw [foldl_add_finRange _
        (fun s => ∏ d : Fin dataN, GSLfun_ran_gaussian_pdf (data d)
          ⟨cdfInv_Gauss m, sigma_of_precision (cdfInv_gamma s)⟩)
        (fun a' s => by rw [gauss_likelihood_product_eq])])
    0, zero_add]

/-- The innermost loop of `data_prob_2component_bySumming`: the running
product of per-observation mixture densities over the whole dataset. -/
noncomputable def mixture_likelihood_product (data : Fin dataN → ℝ)
    (mixCof : ℝ) (p1 p2 : Gauss_params) : ℝ :=
  (List.finRange dataN).foldl
    (fun curProb d => curProb * mixture_density_summing mixCof p1 p2 (data d)) 1

/-- `data_prob_2component_bySumming`: the 5-way nested loops over
(mean1, mean2, precision1, precision2, weight), accumulating the per-cell
mixture-likelihood product, divided by the total cell count. -/
noncomputable def data_prob_2component_bySumming (data : Fin dataN → ℝ) : ℝ :=
  ((List.finRange cdf_Gauss_n).foldl (fun prob_total m1 =>
    (List.finRange cdf_Gauss_n).foldl (fun prob_total m2 =>
      (List.finRange cdf_gamma_n).foldl (fun prob_total s1 =>
        (List.finRange cdf_gamma_n).foldl (fun prob_total s2 =>
          (List.finRange cdf_JBeta_n).foldl (fun prob_total mi =>
            prob_total + mixture_likelihood_product data (cdfInv_JBeta mi)
              ⟨cdfInv_Gauss m1, sigma_of_precision (cdfInv_gamma s1)⟩
              ⟨cdfInv_Gauss m2, sigma_of_precision (cdfInv_gamma s2)⟩)
            prob_total) prob_total) prob_total) prob_total) 0)
  / ((cdf_Gauss_n : ℝ) * (cdf_Gauss_n : ℝ) * (cdf_gamma_n : ℝ) * (cdf_gamma_n : ℝ)
      * (cdf_JBeta_n : ℝ))

lemma mixture_likelihood_product_eq (data : Fin dataN → ℝ)
    (mixCof : ℝ) (p1 p2 : Gauss_params) :
    mixture_likelihood_product data mixCof p1 p2 =
      ∏ d : Fin dataN, mixture_density_summing mixCof p1 p2 (data d) := by
  rw [mixture_likelihood_product,
    foldl_mul_of_step _ (fun d => mixture_density_summing mixCof p1 p2 (data d))
      (fun _ _ => rfl),
    one_mul, Fin.prod_univ_def]

/-- The 2-component Riemann sum, as a 5-fold sum over the grids of the
per-cell product of mixture densities, divided by the total cell count. -/
lemma data_prob_2component_bySumming_eq (data : Fin dataN → ℝ) :
    data_prob_2component_bySumming data =
      (∑ m1 : Fin cdf_Gauss_n, ∑ m2 : Fin cdf_Gauss_n,
        ∑ s1 : Fin cdf_gamma_n, ∑ s2 : Fin cdf_gamma_n, ∑ mi : Fin cdf_JBeta_n,
          ∏ d : Fin dataN, mixture_density_summing (cdfInv_JBeta mi)
            ⟨cdfInv_Gauss m1, sigma_of_precision (cdfInv_gamma s1)⟩
            ⟨cdfInv_Gauss m2, sigma_of_precision (cdfInv_gamma s2)⟩
            (data d))
      / ((cdf_Gauss_n : ℝ) * (cdf_Gauss_n : ℝ) * (cdf_gamma_n : ℝ) * (cdf_gamma_n : ℝ)
          * (cdf_JBeta_n : ℝ)) := by
  rw [data_prob_2component_bySumming]
  congr 1
  rw [foldl_add_finRange _
    (fun m1 => ∑ m2 : Fin cdf_Gauss_n,
      ∑ s1 : Fin cdf_gamma_n, ∑ s2 : Fin cdf_gamma_n, ∑ mi : Fin cdf_JBeta_n,
        ∏ d : Fin dataN, mixture_density_summing (cdfInv_JBeta mi)
          ⟨cdfInv_Gauss m1, sigma_of_precision (cdfInv_gamma s1)⟩
          ⟨cdfInv_Gauss m2, sigma_of_precision (cdfInv_gamma s2)⟩
          (data d))
    (fun a m1 => by
      rw [foldl_add_finRange _
        (fun m2 => ∑ s1 : Fin cdf_gamma_n, ∑ s2 : Fin cdf_gamma_n, ∑ mi : Fin cdf_JBeta_n,
          ∏ d : Fin dataN, mixture_density_summing (cdfInv_JBeta mi)
            ⟨cdfInv_Gauss m1, sigma_of_precision (cdfInv_gamma s1)⟩
            ⟨cdfInv_Gauss m2, sigma_of_precision (cdfInv_gamma s2)⟩
            (data d))
        (fun a m2 => by
          rw [foldl_add_finRange _
            (fun s1 => ∑ s2 : Fin cdf_gamma_n, ∑ mi : Fin cdf_JBeta_n,
              ∏ d : Fin dataN, mixture_density_summing (cdfInv_JBeta mi)
                ⟨cdfInv_Gauss m1, sigma_of_precision (cdfInv_gamma s1)⟩
                ⟨cdfInv_Gauss m2, sigma_of_precision (cdfInv_gamma s2)⟩
                (data d))
            (fun a s1 => by
              rw [foldl_add_finRange _
                (fun s2 => ∑ mi : Fin cdf_JBeta_n,
                  ∏ d : Fin dataN, mixture_density_summing (cdfInv_JBeta mi)
                    ⟨cdfInv_Gauss m1, sigma_of_precision (cdfInv_gamma s1)⟩
                    ⟨cdfInv_Gauss m2, sigma_of_precision (cdfInv_gamma s2)⟩
                    (data d))
                (fun a s2 => by
                  rw [foldl_add_finRange _
                    (fun mi =>
                      ∏ d : Fin dataN, mixture_density_summing (cdfInv_JBeta mi)
                        ⟨cdfInv_Gauss m1, sigma_of_precision (cdfInv_gamma s1)⟩
                        ⟨cdfInv_Gauss m2, sigma_of_precision (cdfInv_gamma s2)⟩
                        (data d))
                    (fun a mi => by rw [mixture_likelihood_product_eq])])])])])
    0, zero_add]

/- ───────────  Monte Carlo estimators  ────────── -/

/-- The inner dataset loop of `data_prob_2component_bySampling`, with the
density terms in the order that function writes them. -/
noncomputable def mixture_likelihood_product_sampling (data : Fin dataN → ℝ)
    (params : Gauss_mixture_params) : ℝ :=
  (List.finRange dataN).foldl
    (fun curProb i =>
      curProb * mixture_density_sampling params.mixCof params.Gauss1 params.Gauss2 (data i)) 1

/-- `data_prob_1component_bySampling`: `sampleRepeatNum` iterations, each
drawing parameters from the prior sampler (advancing the RNG state),
accumulating the dataset likelihood product; returns the accumulated sum
divided by the iteration count, together with the final RNG state. -/
noncomputable def data_prob_1component_bySampling {σ : Type} (R : RNGops σ)
    (data : Fin dataN → ℝ) (s : σ) : ℝ × σ :=
  let r := (List.range sampleRepeatNum).foldl
    (fun acc _ =>
      let ps := prior_Gauss_params_sample R acc.2
      (acc.1 + gauss_likelihood_product data ps.1, ps.2)) (0, s)
  (r.1 / (sampleRepeatNum : ℝ), r.2)

/-- `data_prob_2component_bySampling`: the mixture analogue. -/
noncomputable def data_prob_2component_bySampling {σ : Type} (R : RNGops σ)
    (data : Fin dataN → ℝ) (s : σ) : ℝ × σ :=
  let r := (List.range sampleRepeatNum).foldl
    (fun acc _ =>
      let ps := prior_Gauss_mixture_params_sample R acc.2
      (acc.1 + mixture_likelihood_product_sampling data ps.1, ps.2)) (0, s)
  (r.1 / (sampleRepeatNum : ℝ), r.2)

/-- RNG state after `n` draws of `prior_Gauss_params_sample` from state `s`. -/
noncomputable def sample1_state {σ : Type} (R : RNGops σ) (s : σ) : ℕ → σ
  | 0 => s
  | n + 1 => (prior_Gauss_params_sample R (sample1_state R s n)).2

/-- Parameter set drawn at iteration `i` of the 1-component Monte Carlo loop
started in state `s`. -/
noncomputable def sample1_params {σ : Type} (R : RNGops σ) (s : σ) (i : ℕ) : Gauss_params :=
  (prior_Gauss_params_sample R (sample1_state R s i)).1

/-- RNG state after `n` draws of `prior_Gauss_mixture_params_sample`. -/
noncomputable def sample2_state {σ : Type} (R : RNGops σ) (s : σ) : ℕ → σ
  | 0 => s
  | n + 1 => (prior_Gauss_mixture_params_sample R (sample2_state R s n)).2

/-- Mixture parameter set drawn at iteration `i` of the 2-component Monte
Carlo loop started in state `s`. -/
noncomputable def sample2_params {σ : Type} (R : RNGops σ) (s : σ) (i : ℕ) :
    Gauss_mixture_params :=
  (prior_Gauss_mixture_params_sample R (sample2_state R s i)).1

lemma bySampling1_loop {σ : Type} (R : RNGops σ) (data : Fin dataN → ℝ) :
    ∀ (n : ℕ) (a : ℝ) (s : σ),
      (List.range n).foldl
        (fun acc _ =>
          let ps := prior_Gauss_params_sample R acc.2
          (acc.1 + gauss_likelihood_product data ps.1, ps.2)) (a, s)
      = (a + ∑ i ∈ Finset.range n, gauss_likelihood_product data (sample1_params R s i),
         sample1_state R s n) := by
  intro n
  induction n with
  | zero => intro a s; simp [sample1_state]
  | succ n ih =>
      intro a s
      rw [List.range_succ, List.foldl_append, ih, List.foldl_cons, List.foldl_nil,
        Finset.sum_range_succ, sample1_params, sample1_state, ← add_assoc]

lemma bySampling2_loop {σ : Type} (R : RNGops σ) (data : Fin dataN → ℝ) :
    ∀ (n : ℕ) (a : ℝ) (s : σ),
      (List.range n).foldl
        (fun acc _ =>
          let ps := prior_Gauss_mixture_params_sample R acc.2
          (acc.1 + mixture_likelihood_product_sampling data ps.1, ps.2)) (a, s)
      = (a + ∑ i ∈ Finset.range n,
            mixture_likelihood_product_sampling data (sample2_params R s i),
         sample2_state R s n) := by
  intro n
  induction n with
  | zero => intro a s; simp [sample2_state]
  | succ n ih =>
      intro a s
      rw [List.range_succ, List.foldl_append, ih, List.foldl_cons, List.foldl_nil,
        Finset.sum_range_succ, sample2_params, sample2_state, ← add_assoc]

lemma data_prob_1component_bySampling_eq {σ : Type} (R : RNGops σ)
    (data : Fin dataN → ℝ) (s : σ) :
    data_prob_1component_bySampling R data s
      = ((∑ i ∈ Finset.range sampleRepeatNum,
            gauss_likelihood_product data (sample1_params R s i)) / (sampleRepeatNum : ℝ),
         sample1_state R s sampleRepeatNum) := by
  rw [data_prob_1component_bySampling]
  rw [bySampling1_loop R data sampleRepeatNum 0 s]
  simp

lemma data_prob_2component_bySampling_eq {σ : Type} (R : RNGops σ)
    (data : Fin dataN → ℝ) (s : σ) :
    data_prob_2component_bySampling R data s
      = ((∑ i ∈ Finset.range sampleRepeatNum,
            mixture_likelihood_product_sampling data (sample2_params R s i))
              / (sampleRepeatNum : ℝ),
         sample2_state R s sampleRepeatNum) := by
  rw [data_prob_2component_bySampling]
  rw [bySampling2_loop R data sampleRepeatNum 0 s]
  simp

lemma mixture_likelihood_product_sampling_eq (data : Fin dataN → ℝ)
    (params : Gauss_mixture_params) :
    mixture_likelihood_product_sampling data params =
      ∏ d : Fin dataN,
        mixture_density_sampling params.mixCof params.Gauss1 params.Gauss2 (data d) := by
  rw [mixture_likelihood_product_sampling,
    foldl_mul_of_step _
      (fun d => mixture_density_sampling params.mixCof params.Gauss1 params.Gauss2 (data d))
      (fun _ _ => rfl),
    one_mul, Fin.prod_univ_def]

/- ───────────  Experiment driver: tallying of correct selections  ────────── -/

/-- The per-trial tally loop of `main`: starting from `0`, increment once for
each trial whose 1-component estimate strictly exceeds its 2-component
estimate (`if (prob1 > prob2) ++count`).  `p1 i` and `p2 i` are the two
evidence estimates computed in trial `i`. -/
noncomputable def favors1_count (p1 p2 : ℕ → ℝ) (T : ℕ) : ℕ :=
  (List.range T).foldl (fun c iter => if p2 iter < p1 iter then c + 1 else c) 0

/-- The count `main` reports as correct selections for data generated from
model 1: `model1_*_favors1` itself. -/
noncomputable def model1_correct_reported (p1 p2 : ℕ → ℝ) (T : ℕ) : ℕ :=
  favors1_count p1 p2 T

/-- The count `main` reports as correct selections for data generated from
model 2: `datasets_n - model2_*_favors1`. -/
noncomputable def model2_correct_reported (p1 p2 : ℕ → ℝ) (T : ℕ) : ℕ :=
  T - favors1_count p1 p2 T

lemma foldl_count_of_step (p : ℕ → Prop) [DecidablePred p] :
    ∀ (l : List ℕ) (c : ℕ),
      l.foldl (fun c i => if p i then c + 1 else c) c = c + (l.filter (fun i => decide (p i))).length := by
  intro l
  induction l with
  | nil => intro c; simp
  | cons x xs ih =>
      intro c
      by_cases hx : p x <;> simp [List.foldl_cons, hx, ih, Nat.add_assoc, Nat.add_comm 1]

lemma favors1_count_eq (p1 p2 : ℕ → ℝ) (T : ℕ) :
    favors1_count p1 p2 T = ((Finset.range T).filter (fun i => p2 i < p1 i)).card := by
  rw [favors1_count, foldl_count_of_step (fun i => p2 i < p1 i), Nat.zero_add]
  rw [Finset.card_filter]
  induction T with
  | zero => simp
  | succ n ih =>
      rw [List.range_succ, List.filter_append, List.length_append, ih, Finset.sum_range_succ]
      by_cases h : p2 n < p1 n <;> simp [h]

lemma favors1_count_le (p1 p2 : ℕ → ℝ) (T : ℕ) : favors1_count p1 p2 T ≤ T := by
  rw [favors1_count_eq]
  exact le_trans (Finset.card_filter_le _ _) (le_of_eq (Finset.card_range T))

/- ───────────  Command-line surface of `main`  ────────── -/

/-- The whitespace characters C `atoi` skips. -/
def isCSpace (c : Char) : Bool :=
  c = ' ' ∨ c = '\t' ∨ c = '\n' ∨ c = '\x0b' ∨ c = '\x0c' ∨ c = '\r'

/-- Value of a string of decimal digits, most significant first. -/
def digitsToNat (l : List Char) : ℕ :=
  l.foldl (fun acc c => 10 * acc + (c.toNat - 48)) 0

/-- Sign handling of C `atoi` on the whitespace-stripped character list. -/
def atoiSign (cs : List Char) : Int :=
  if cs.head? = some '-' then - (digitsToNat ((cs.drop 1).takeWhile Char.isDigit) : Int)
  else if cs.head? = some '+' then (digitsToNat ((cs.drop 1).takeWhile Char.isDigit) : Int)
  else (digitsToNat (cs.takeWhile Char.isDigit) : Int)

/-- Modelled from the spec (C library `atoi`, called by `main`, not under
src/): skip leading whitespace, an optional sign, then the longest prefix of
decimal digits; `0` when no digits follow. -/
def atoiModel (s : String) : Int := atoiSign (s.data.dropWhile isCSpace)

/-- Conversion of a C `int` value to `uint` (reduction modulo 2³²), as in
`uint datasets_n = atoi(argv[1])`. -/
def uintOfInt (n : Int) : ℕ := (n % (2 ^ 32 : ℤ)).toNat

/-- The argument handling of `main`: `args` is `argv` without the program
name.  No argument defaults to 10 trials; one argument is passed through
`atoi` and stored into the `uint` trial counter, a zero value exiting with
status 64; more than one argument exits with status 64. -/
def parse_args (args : List String) : Except ℕ ℕ :=
  match args with
  | [] => Except.ok 10
  | [a] =>
      let n := uintOfInt (atoiModel a)
      if n = 0 then Except.error 64 else Except.ok n
  | _ => Except.error 64

/-- A string that is a plain positive decimal numeral (what the spec calls "a
positive integer"): nonempty, all digits, nonzero value. -/
def isPosIntNumeral (s : String) : Bool :=
  s.data ≠ [] ∧ s.data.all Char.isDigit ∧ digitsToNat s.data ≠ 0

/- ───────────  Claim theorems  ────────── -/

/-- Claim C1: for every dataset of the fixed length 40, the 1-component
quadrature estimator returns the sum, over every (mean, scale) pair in the
cross-product of the mean grid (G = 20) and the scale grid (S = 10, each
precision node transformed by `sigma_of_precision`), of the product over all
40 observations of the Gaussian density under that pair, divided by the total
cell count G·S. -/
theorem quadrature_1component_is_grid_average (data : Fin dataN → ℝ) :
    dataN = 40 ∧ cdf_Gauss_n = 20 ∧ cdf_gamma_n = 10 ∧
    data_prob_1component_bySumming data =
      (∑ m : Fin cdf_Gauss_n, ∑ s : Fin cdf_gamma_n,
        ∏ d : Fin dataN, GSLfun_ran_gaussian_pdf (data d)
          ⟨cdfInv_Gauss m, sigma_of_precision (cdfInv_gamma s)⟩)
      / ((cdf_Gauss_n : ℝ) * (cdf_gamma_n : ℝ)) :=
  ⟨rfl, rfl, rfl, data_prob_1component_bySumming_eq data⟩

/-- Claim C2: for every dataset of the fixed length 40, the 2-component
quadrature estimator returns the sum over the full 5-way cross-product
(mean1, mean2, scale1, scale2, weight) of the mixture-density products,
divided by the total cell count G·G·S·S·M. -/
theorem quadrature_2component_is_grid_average (data : Fin dataN → ℝ) :
    dataN = 40 ∧ cdf_Gauss_n = 20 ∧ cdf_gamma_n = 10 ∧ cdf_JBeta_n = 40 ∧
    data_prob_2component_bySumming data =
      (∑ m1 : Fin cdf_Gauss_n, ∑ m2 : Fin cdf_Gauss_n,
        ∑ s1 : Fin cdf_gamma_n, ∑ s2 : Fin cdf_gamma_n, ∑ mi : Fin cdf_JBeta_n,
          ∏ d : Fin dataN, mixture_density_summing (cdfInv_JBeta mi)
            ⟨cdfInv_Gauss m1, sigma_of_precision (cdfInv_gamma s1)⟩
            ⟨cdfInv_Gauss m2, sigma_of_precision (cdfInv_gamma s2)⟩
            (data d))
      / ((cdf_Gauss_n : ℝ) * (cdf_Gauss_n : ℝ) * (cdf_gamma_n : ℝ) * (cdf_gamma_n : ℝ)
          * (cdf_JBeta_n : ℝ)) :=
  ⟨rfl, rfl, rfl, rfl, data_prob_2component_bySumming_eq data⟩

/-- Claim C3: for each model, the Monte Carlo estimator runs the fixed
build-time iteration count 2,000,000; iteration `i` uses the parameter set
produced by the `i`-th application of the corresponding prior sampler, and
the returned estimate is the sum of the per-iteration dataset likelihood
products divided by the iteration count. -/
theorem monte_carlo_estimators_average_prior_draws :
    sampleRepeatNum = 2000000 ∧
    (∀ (σ : Type) (R : RNGops σ) (data : Fin dataN → ℝ) (s : σ),
      (data_prob_1component_bySampling R data s).1 =
        (∑ i ∈ Finset.range sampleRepeatNum,
          ∏ d : Fin dataN, GSLfun_ran_gaussian_pdf (data d) (sample1_params R s i))
        / (sampleRepeatNum : ℝ)) ∧
    (∀ (σ : Type) (R : RNGops σ) (data : Fin dataN → ℝ) (s : σ),
      (data_prob_2component_bySampling R data s).1 =
        (∑ i ∈ Finset.range sampleRepeatNum,
          ∏ d : Fin dataN, mixture_density_sampling (sample2_params R s i).mixCof
            (sample2_params R s i).Gauss1 (sample2_params R s i).Gauss2 (data d))
        / (sampleRepeatNum : ℝ)) := by
  refine ⟨rfl, ?_, ?_⟩
  · intro σ R data s
    rw [data_prob_1component_bySampling_eq]
    simp only [gauss_likelihood_product_eq]
  · intro σ R data s
    rw [data_prob_2component_bySampling_eq]
    simp only [mixture_likelihood_product_sampling_eq]

/-- Claim C4: the grid builder places the mean grid's 20 nodes at the mean
prior's quantiles of probabilities `(i+1)/(G+1)` — all strictly between 0 and
1 — and the scale grid's 10 nodes at the precision prior's quantiles of
probabilities `i/S` for `i` in `0..S−1`, each precision value being
transformed by `sigma_of_precision = 1/sqrt(precision)`. -/
theorem grid_builder_quantile_nodes :
    cdf_Gauss_n = 20 ∧ cdf_gamma_n = 10 ∧
    (∀ i : Fin cdf_Gauss_n,
      cdfInv_Gauss i =
        gsl_cdf_gaussian_Pinv (((i : ℕ) + 1 : ℝ) / (1 + (cdf_Gauss_n : ℝ)))
          mu_prior_params.sigma ∧
      0 < ((i : ℕ) + 1 : ℝ) / (1 + (cdf_Gauss_n : ℝ)) ∧
      ((i : ℕ) + 1 : ℝ) / (1 + (cdf_Gauss_n : ℝ)) < 1) ∧
    (∀ i : Fin cdf_gamma_n,
      cdfInv_gamma i =
        gsl_cdf_gamma_Pinv (((i : ℕ) : ℝ) / (cdf_gamma_n : ℝ))
          sigma_prior_param_a sigma_prior_param_b ∧
      0 ≤ ((i : ℕ) : ℝ) / (cdf_gamma_n : ℝ) ∧
      ((i : ℕ) : ℝ) / (cdf_gamma_n : ℝ) < 1) ∧
    (∀ prec : ℝ, sigma_of_precision prec = 1 / Real.sqrt prec) := by
  have h20 : (cdf_Gauss_n : ℝ) = 20 := by norm_num [cdf_Gauss_n]
  have h10 : (cdf_gamma_n : ℝ) = 10 := by norm_num [cdf_gamma_n]
  refine ⟨rfl, rfl, ?_, ?_, fun _ => rfl⟩
  · intro i
    have hi : ((i : ℕ) : ℝ) < 20 := by
      have := i.isLt
      rw [show (20 : ℝ) = ((cdf_Gauss_n : ℕ) : ℝ) by rw [h20]]
      exact_mod_cast this
    refine ⟨rfl, by positivity, ?_⟩
    rw [div_lt_one (by positivity), h20]
    linarith
  · intro i
    have hi : ((i : ℕ) : ℝ) < 10 := by
      have := i.isLt
      rw [show (10 : ℝ) = ((cdf_gamma_n : ℕ) : ℝ) by rw [h10]]
      exact_mod_cast this
    refine ⟨rfl, by positivity, ?_⟩
    rw [div_lt_one (by rw [h10]; norm_num), h10]
    linarith

/-- Claim C5: the mixing-weight grid consists of the Beta(0.5,0.5) quantiles
at the 40 probabilities `0.5·i/M`, all lying in the half-range `[0, 0.5)`,
and the 2-component quadrature estimator sums over exactly these M weight
values and divides by the full cell count G·G·S·S·M without a compensating
factor of 2 and without folding in the symmetric upper-half contribution. -/
theorem weight_grid_is_uncompensated_halfrange :
    cdf_JBeta_n = 40 ∧
    (∀ i : Fin cdf_JBeta_n,
      cdfInv_JBeta i = gsl_cdf_beta_Pinv (0.5 * ((i : ℕ) : ℝ) / (cdf_JBeta_n : ℝ)) 0.5 0.5 ∧
      0 ≤ 0.5 * ((i : ℕ) : ℝ) / (cdf_JBeta_n : ℝ) ∧
      0.5 * ((i : ℕ) : ℝ) / (cdf_JBeta_n : ℝ) < 0.5) ∧
    (∀ data : Fin dataN → ℝ,
      data_prob_2component_bySumming data =
        (∑ m1 : Fin cdf_Gauss_n, ∑ m2 : Fin cdf_Gauss_n,
          ∑ s1 : Fin cdf_gamma_n, ∑ s2 : Fin cdf_gamma_n, ∑ mi : Fin cdf_JBeta_n,
            ∏ d : Fin dataN, mixture_density_summing (cdfInv_JBeta mi)
              ⟨cdfInv_Gauss m1, sigma_of_precision (cdfInv_gamma s1)⟩
              ⟨cdfInv_Gauss m2, sigma_of_precision (cdfInv_gamma s2)⟩
              (data d))
        / ((cdf_Gauss_n : ℝ) * (cdf_Gauss_n : ℝ) * (cdf_gamma_n : ℝ) * (cdf_gamma_n : ℝ)
            * (cdf_JBeta_n : ℝ))) := by
  have h40 : (cdf_JBeta_n : ℝ) = 40 := by norm_num [cdf_JBeta_n]
  refine ⟨rfl, ?_, data_prob_2component_bySumming_eq⟩
  intro i
  have hi : ((i : ℕ) : ℝ) < 40 := by
    have := i.isLt
    rw [show (40 : ℝ) = ((cdf_JBeta_n : ℕ) : ℝ) by rw [h40]]
    exact_mod_cast this
  have hi0 : (0 : ℝ) ≤ ((i : ℕ) : ℝ) := Nat.cast_nonneg _
  refine ⟨rfl, by positivity, ?_⟩
  rw [div_lt_iff (by rw [h40]; norm_num), h40]
  linarith

/-- Claim C10: for every weight in [0,1], every pair of `Gauss_params` and
every observation, the mixture density expression of the 2-component
quadrature loop equals the one of the 2-component Monte Carlo loop in exact
real arithmetic. -/
theorem mixture_density_expressions_agree (w : ℝ) (hw : 0 ≤ w ∧ w ≤ 1)
    (p1 p2 : Gauss_params) (x : ℝ) :
    mixture_density_summing w p1 p2 x = mixture_density_sampling w p1 p2 x := by
  rw [mixture_density_summing, mixture_density_sampling, add_comm]

/-- Witness for C10 at weight 1/2. -/
theorem mixture_density_expressions_agree_witness :
    mixture_density_summing (1 / 2) ⟨0, 1⟩ ⟨1, 2⟩ 0
      = mixture_density_sampling (1 / 2) ⟨0, 1⟩ ⟨1, 2⟩ 0 :=
  mixture_density_expressions_agree (1 / 2) ⟨by norm_num, by norm_num⟩ ⟨0, 1⟩ ⟨1, 2⟩ 0

/-- Claim C7 counterexample: with one trial of model-2 data whose two
evidence estimates tie (both 0), the driver reports 1 correct selection even
though the number of trials in which the true model's evidence is strictly
higher is 0.  So "correct exactly when the true model's estimate is higher"
fails for the model-2 tally. -/
theorem model2_tally_counts_ties_as_correct :
    model2_correct_reported (fun _ => (0 : ℝ)) (fun _ => (0 : ℝ)) 1
      ≠ ((Finset.range 1).filter (fun i => (fun _ => (0 : ℝ)) i < (fun _ => (0 : ℝ)) i)).card := by
  have h1 : model2_correct_reported (fun _ => (0 : ℝ)) (fun _ => (0 : ℝ)) 1 = 1 := by
    rw [model2_correct_reported, favors1_count_eq]
    simp
  have h2 : ((Finset.range 1).filter
      (fun i => (fun _ => (0 : ℝ)) i < (fun _ => (0 : ℝ)) i)).card = 0 := by
    simp
  rw [h1, h2]
  exact one_ne_zero

/-- Claim C7 amended: for ground-truth model 1 the reported count is the
number of trials whose model-1 estimate is strictly higher; for ground-truth
model 2 it is the number of trials whose model-2 estimate is at least the
model-1 estimate — ties are counted as correct selections for model 2. -/
theorem driver_tally_characterization :
    (∀ (p1 p2 : ℕ → ℝ) (T : ℕ),
      model1_correct_reported p1 p2 T
        = ((Finset.range T).filter (fun i => p2 i < p1 i)).card) ∧
    (∀ (p1 p2 : ℕ → ℝ) (T : ℕ),
      model2_correct_reported p1 p2 T
        = ((Finset.range T).filter (fun i => p1 i ≤ p2 i)).card) := by
  constructor
  · intro p1 p2 T
    exact favors1_count_eq p1 p2 T
  · intro p1 p2 T
    rw [model2_correct_reported, favors1_count_eq]
    have hsplit :
        ((Finset.range T).filter (fun i => p2 i < p1 i)).card
          + ((Finset.range T).filter (fun i => ¬ (p2 i < p1 i))).card
        = T := by
      rw [Finset.filter_card_add_filter_neg_card_eq_card, Finset.card_range]
    have hnot : ((Finset.range T).filter (fun i => ¬ (p2 i < p1 i)))
        = ((Finset.range T).filter (fun i => p1 i ≤ p2 i)) := by
      apply Finset.filter_congr
      intro i _
      simp [not_lt]
    rw [hnot] at hsplit
    omega

lemma isDigit_not_CSpace {c : Char} (h : c.isDigit = true) : isCSpace c = false := by
  simp only [isCSpace, decide_eq_false_iff_not]
  rintro (rfl | rfl | rfl | rfl | rfl | rfl) <;> exact absurd h (by decide)

lemma dropWhile_isCSpace_of_digits {l : List Char} (hne : l ≠ [])
    (hd : l.all Char.isDigit = true) : l.dropWhile isCSpace = l := by
  cases l with
  | nil => exact absurd rfl hne
  | cons c cs =>
      have hc : c.isDigit = true := by
        have hall := List.all_eq_true.1 hd
        exact hall c (List.mem_cons_self c cs)
      rw [List.dropWhile_cons, isDigit_not_CSpace hc]
      simp

lemma takeWhile_isDigit_of_digits {l : List Char} (hd : l.all Char.isDigit = true) :
    l.takeWhile Char.isDigit = l := by
  induction l with
  | nil => rfl
  | cons c cs ih =>
      simp only [List.all_cons, Bool.and_eq_true] at hd
      rw [List.takeWhile_cons, hd.1]
      simp [ih hd.2]

lemma atoiModel_of_digits {s : String} (hne : s.data ≠ [])
    (hd : s.data.all Char.isDigit = true) :
    atoiModel s = (digitsToNat s.data : Int) := by
  rw [atoiModel, dropWhile_isCSpace_of_digits hne hd]
  rcases hlist : s.data with _ | ⟨c, cs⟩
  · exact absurd hlist hne
  · have hc : c.isDigit = true := by
      have hall := List.all_eq_true.1 (hlist ▸ hd)
      exact hall c (List.mem_cons_self c cs)
    have hcm : c ≠ '-' := by rintro rfl; exact absurd hc (by decide)
    have hcp : c ≠ '+' := by rintro rfl; exact absurd hc (by decide)
    rw [atoiSign, List.head?_cons, if_neg (by simp [hcm]), if_neg (by simp [hcp]),
      takeWhile_isDigit_of_digits (hlist ▸ hd)]

lemma uintOfInt_of_small {n : ℕ} (h : n < 2 ^ 32) : uintOfInt (n : Int) = n := by
  rw [uintOfInt, Int.emod_eq_of_lt (by positivity) (by exact_mod_cast h)]
  simp

/-- Claim C8 counterexample: the argument `-5` is not a positive integer, yet
`main` does not exit with status 64: `atoi` returns −5, which the `uint`
conversion turns into 4294967291, a nonzero trial count that is accepted. -/
theorem cli_accepts_non_posint_argument :
    isPosIntNumeral ("-5") = false ∧ parse_args [("-5")] = Except.ok 4294967291 := by
  exact ⟨by decide, rfl⟩

/-- Claim C8 amended: no argument defaults to 10 trials; more than one
argument exits with status 64; a single argument exits with status 64 exactly
when `atoi` of it is congruent to 0 modulo 2³² (after the conversion to the
`uint` trial counter), and otherwise the trial count is that converted value
— in particular every plain positive decimal numeral below 2³² is accepted
verbatim, but non-numeric or negative arguments with a nonzero converted
value are accepted as well. -/
theorem cli_parse_characterization :
    parse_args [] = Except.ok 10
  ∧ (∀ a : String, parse_args [a] =
      if uintOfInt (atoiModel a) = 0 then Except.error 64
      else Except.ok (uintOfInt (atoiModel a)))
  ∧ (∀ (a b : String) (l : List String), parse_args (a :: b :: l) = Except.error 64)
  ∧ (∀ s : String, s.data ≠ [] → s.data.all Char.isDigit = true →
      0 < digitsToNat s.data → digitsToNat s.data < 2 ^ 32 →
      parse_args [s] = Except.ok (digitsToNat s.data)) := by
  refine ⟨rfl, fun a => rfl, fun a b l => rfl, ?_⟩
  intro s hne hd hpos hlt
  show (if uintOfInt (atoiModel s) = 0 then Except.error 64
        else Except.ok (uintOfInt (atoiModel s))) = Except.ok (digitsToNat s.data)
  rw [atoiModel_of_digits hne hd, uintOfInt_of_small hlt, if_neg (by omega)]

/-- Witness for the amended C8: the argument `7` yields 7 trials. -/
theorem cli_parse_characterization_witness :
    parse_args [("7")] = Except.ok (digitsToNat ("7").data) :=
  cli_parse_characterization.2.2.2 ("7") (by decide) (by decide) (by decide) (by decide)

/- ───────────  Scale positivity and the probability-0 grid cell  ────────── -/

lemma gamma_pdf_nonneg {a b : ℝ} (ha : 0 < a) (hb : 0 ≤ b) (t : ℝ) :
    0 ≤ gamma_pdf a b t := by
  rw [gamma_pdf]
  split_ifs with ht
  · exact mul_nonneg
      (mul_nonneg (div_nonneg (Real.rpow_nonneg hb a) (Real.Gamma_pos_of_pos ha).le)
        (Real.rpow_nonneg ht _))
      (Real.exp_pos _).le
  · exact le_refl 0

lemma gamma_cdf_nonneg {a b : ℝ} (ha : 0 < a) (hb : 0 ≤ b) (x : ℝ) :
    0 ≤ gamma_cdf a b x := by
  rw [gamma_cdf]
  exact MeasureTheory.setIntegral_nonneg measurableSet_Iic (fun t _ => gamma_pdf_nonneg ha hb t)

lemma gsl_cdf_gamma_Pinv_zero {a b : ℝ} (ha : 0 < a) (hb : 0 ≤ b) :
    gsl_cdf_gamma_Pinv 0 a b = 0 := by
  rw [gsl_cdf_gamma_Pinv]
  have hset : {x : ℝ | 0 ≤ x ∧ (0 : ℝ) ≤ gamma_cdf a b x} = Set.Ici 0 := by
    ext x
    simp only [Set.mem_setOf_eq, Set.mem_Ici]
    exact ⟨fun h => h.1, fun h => ⟨h, gamma_cdf_nonneg ha hb x⟩⟩
  rw [hset, csInf_Ici]

lemma cdfInv_gamma_zero : cdfInv_gamma 0 = 0 := by
  have h0 : ((0 : Fin cdf_gamma_n) : ℕ) = 0 := rfl
  rw [cdfInv_gamma, h0, Nat.cast_zero, zero_div]
  exact gsl_cdf_gamma_Pinv_zero (by norm_num [sigma_prior_param_a])
    (by norm_num [sigma_prior_param_b])

/-- Claim C6 counterexample: the grid cell built from the precision prior's
quantile at probability 0 has precision 0, and its transform `1/sqrt(0)` is
not a positive (finite) real scale — the C code divides by zero here (IEEE
+∞); in the exact-real model the value is 0.  So not every `Gauss_params`
the program constructs has `scale > 0`. -/
theorem grid_cell_zero_scale_not_positive :
    ¬ (0 < sigma_of_precision (cdfInv_gamma 0)) := by
  rw [cdfInv_gamma_zero, sigma_of_precision, Real.sqrt_zero, div_zero]
  exact lt_irrefl 0

/-- Claim C6 amended: the transform `1/sqrt(precision)` yields a positive
scale for every positive precision — hence for every prior-sampler draw whose
Gamma deviate is positive, and for every grid cell with positive precision —
but the grid cell at probability 0 has precision exactly 0, where the
transform does not produce a positive real scale. -/
theorem scale_positive_except_zero_quantile_cell :
    (∀ prec : ℝ, 0 < prec → 0 < sigma_of_precision prec)
  ∧ (∀ (σ : Type) (R : RNGops σ) (s : σ),
      0 < (R.ran_gamma sigma_prior_param_a sigma_prior_param_b
            (R.ran_gaussian mu_prior_params s).2).1 →
      0 < (prior_Gauss_params_sample R s).1.sigma)
  ∧ cdfInv_gamma 0 = 0 := by
  refine ⟨?_, ?_, cdfInv_gamma_zero⟩
  · intro prec h
    rw [sigma_of_precision]
    exact div_pos one_pos (Real.sqrt_pos.2 h)
  · intro σ R s h
    show 0 < sigma_of_precision (R.ran_gamma sigma_prior_param_a sigma_prior_param_b
      (R.ran_gaussian mu_prior_params s).2).1
    rw [sigma_of_precision]
    exact div_pos one_pos (Real.sqrt_pos.2 h)

/-- A degenerate RNG over the unit state, used by witnesses: the Gamma
deviate is the constant 1, all other draws are 0. -/
noncomputable def constRNG : RNGops Unit :=
  ⟨fun _ _ => (0, ()), fun _ _ _ => (1, ()), fun _ => (0, ()), fun _ => (0, ())⟩

/-- Witness for the amended C6: precision 1 gives a positive scale, both
directly and through the prior sampler. -/
theorem scale_positive_witness :
    0 < sigma_of_precision 1 ∧ 0 < (prior_Gauss_params_sample constRNG ()).1.sigma :=
  ⟨scale_positive_except_zero_quantile_cell.1 1 one_pos,
   scale_positive_except_zero_quantile_cell.2.1 Unit constRNG () (by norm_num [constRNG])⟩

/- ───────────  RNG state advance of the Monte Carlo estimators  ────────── -/

/-- A concrete RNG whose state counts primitive draws: Gaussian deviates are
0, and the Gamma deviate is 1 for the first 4,000,000 draws and 4 afterwards
— so the first Monte Carlo call and the second see different precisions. -/
noncomputable def cexRNG : RNGops ℕ where
  ran_gaussian := fun _ s => (0, s + 1)
  ran_gamma := fun _ _ s => (if s < 4000000 then 1 else 4, s + 1)
  ran_beta_Jeffreys := fun s => (0, s + 1)
  ran_flat01 := fun s => (0, s + 1)

lemma cex_state (s0 : ℕ) : ∀ i : ℕ, sample1_state cexRNG s0 i = s0 + 2 * i := by
  intro i
  induction i with
  | zero => simp [sample1_state]
  | succ n ih =>
      rw [sample1_state, ih]
      simp only [prior_Gauss_params_sample, cexRNG]
      omega

lemma cex_params (s0 i : ℕ) :
    sample1_params cexRNG s0 i =
      ⟨0, sigma_of_precision (if s0 + 2 * i + 1 < 4000000 then 1 else 4)⟩ := by
  rw [sample1_params, cex_state]
  simp [prior_Gauss_params_sample, cexRNG]

lemma sigma_of_precision_one : sigma_of_precision 1 = 1 := by
  rw [sigma_of_precision, Real.sqrt_one, div_one]

lemma sigma_of_precision_four : sigma_of_precision 4 = 1 / 2 := by
  rw [sigma_of_precision, show (4 : ℝ) = 2 ^ 2 by norm_num,
    Real.sqrt_sq (by norm_num : (0 : ℝ) ≤ 2)]

lemma cex_call_value (s0 : ℕ) (p : Gauss_params)
    (hp : ∀ i : ℕ, i < sampleRepeatNum → sample1_params cexRNG s0 i = p)
    (data : Fin dataN → ℝ) :
    (data_prob_1component_bySampling cexRNG data s0).1
      = gauss_likelihood_product data p := by
  rw [data_prob_1component_bySampling_eq]
  simp only
  rw [Finset.sum_congr rfl (fun i hi => by rw [hp i (Finset.mem_range.1 hi)])]
  rw [Finset.sum_const, Finset.card_range, nsmul_eq_mul]
  rw [mul_comm, mul_div_assoc,
    div_self (by norm_num [sampleRepeatNum] : (sampleRepeatNum : ℝ) ≠ 0), mul_one]

lemma glp_const_zero (p : Gauss_params) :
    gauss_likelihood_product (fun _ => 0) p = GSLfun_ran_gaussian_pdf 0 p ^ dataN := by
  rw [gauss_likelihood_product_eq, Finset.prod_const, Finset.card_univ, Fintype.card_fin]

lemma pdf_zero_centered (v : ℝ) :
    GSLfun_ran_gaussian_pdf 0 ⟨0, v⟩ = 1 / (v * Real.sqrt (2 * Real.pi)) := by
  rw [GSLfun_ran_gaussian_pdf]
  norm_num

/-- Claim C9 counterexample: with the RNG `cexRNG`, the 1-component Monte
Carlo estimator called twice in succession on the same all-zero dataset (the
second call starting from the RNG state the first call leaves behind)
returns two different values — the estimator is not a pure function of the
dataset and the fixed grids/priors alone, and the RNG state does carry
between invocations. -/
theorem monte_carlo_second_call_differs :
    (data_prob_1component_bySampling cexRNG (fun _ => 0) 0).1
      ≠ (data_prob_1component_bySampling cexRNG (fun _ => 0)
          ((data_prob_1component_bySampling cexRNG (fun _ => 0) 0).2)).1 := by
  have hN : sampleRepeatNum = 2000000 := rfl
  have hstate : (data_prob_1component_bySampling cexRNG (fun _ => (0 : ℝ)) 0).2 = 4000000 := by
    rw [data_prob_1component_bySampling_eq]
    simp only
    rw [cex_state]
    omega
  have hp1 : ∀ i : ℕ, i < sampleRepeatNum → sample1_params cexRNG 0 i = ⟨0, 1⟩ := by
    intro i hi
    rw [cex_params, if_pos (by omega), sigma_of_precision_one]
  have hp2 : ∀ i : ℕ, i < sampleRepeatNum →
      sample1_params cexRNG 4000000 i = ⟨0, 1 / 2⟩ := by
    intro i hi
    rw [cex_params, if_neg (by omega), sigma_of_precision_four]
  rw [hstate, cex_call_value 0 ⟨0, 1⟩ hp1, cex_call_value 4000000 ⟨0, 1 / 2⟩ hp2,
    glp_const_zero, glp_const_zero, pdf_zero_centered, pdf_zero_centered]
  have ht : 0 < Real.sqrt (2 * Real.pi) := Real.sqrt_pos.2 (by positivity)
  have hlt : (1 : ℝ) / (1 * Real.sqrt (2 * Real.pi))
      < 1 / (1 / 2 * Real.sqrt (2 * Real.pi)) := by
    rw [one_mul, show (1 : ℝ) / 2 * Real.sqrt (2 * Real.pi) = Real.sqrt (2 * Real.pi) / 2 by
        ring, one_div_div]
    rw [div_lt_div_right ht]
    norm_num
  exact ne_of_lt (pow_lt_pow_left hlt (by positivity) (by norm_num [dataN]))

/-- Claim C9 amended: the quadrature estimators are pure functions of the
dataset and the fixed grids (their embedding takes nothing else).  The Monte
Carlo estimators are deterministic functions of the dataset and the initial
RNG state, but they advance the RNG state: the final state is exactly the
`sampleRepeatNum`-fold prior-sampler advance of the initial state — in
particular it does not depend on the dataset, and nothing besides the RNG
state is modified — so two consecutive calls on the same dataset start from
different RNG states and may return different values. -/
theorem monte_carlo_modifies_only_rng_state :
    (∀ (σ : Type) (R : RNGops σ) (data : Fin dataN → ℝ) (s : σ),
      (data_prob_1component_bySampling R data s).2 = sample1_state R s sampleRepeatNum)
  ∧ (∀ (σ : Type) (R : RNGops σ) (data : Fin dataN → ℝ) (s : σ),
      (data_prob_2component_bySampling R data s).2 = sample2_state R s sampleRepeatNum) := by
  constructor
  · intro σ R data s
    rw [data_prob_1component_bySampling_eq]
  · intro σ R data s
    rw [data_prob_2component_bySampling_eq]
